import Mathlib

/-!
# RoxTerm profile store and search dialog flags

A shallow embedding of `src/roxterm-profile.c` (the named, persistent, typed
configuration store) and of the flag handling of `src/search.c`, together
with the properties of the specification that were checked against them.

GLib is the environment of the program, not part of it.  It is modelled here
from its documented contracts:

* `g_build_path` follows the algorithm of GLib (`g_build_path_va`): its first
  argument is the separator, the remaining ones are the path elements;
* a `GKeyFile` is a table from (group, key) to a value; keys are GKeyFile key
  names (the argument checks that GLib performs with `g_return_if_fail` are
  outside the model);
* the filesystem is a table of files and directories together with an oracle
  that tells whether a write to a path succeeds.
-/

namespace Roxterm

/-! ## GLib: `g_build_path` -/

/-- The loop `while (strncmp (start, separator, separator_len) == 0)
start += separator_len;` of `g_build_path_va`: the offset of `start` in the
text `s`.  The fuel bounds the number of iterations (the length of the text
is always enough). -/
def skipLeading (sep : List Char) : Nat → List Char → Nat
  | 0, _ => 0
  | fuel + 1, s =>
    if sep.isPrefixOf s then sep.length + skipLeading sep fuel (s.drop sep.length) else 0

/-- The loops `while (end >= lo + separator_len && strncmp (end -
separator_len, separator, separator_len) == 0) end -= separator_len;` of
`g_build_path_va`, on offsets into `element`: `lo` is the offset of `start`
for the `end` pointer and `0` for the `last_trailing` pointer. -/
def skipTrailing (sep element : List Char) (lo : Nat) : Nat → Nat → Nat
  | 0, e => e
  | fuel + 1, e =>
    if lo + sep.length ≤ e ∧ sep.isPrefixOf (element.drop (e - sep.length)) then
      skipTrailing sep element lo fuel (e - sep.length)
    else e

/-- The local variables of `g_build_path_va` that live across loop
iterations.  `last_trailing` is kept as the text it points to. -/
structure BuildPath where
  result : List Char
  is_first : Bool
  have_leading : Bool
  single_element : Option (List Char)
  last_trailing : Option (List Char)

/-- One iteration of the element loop of `g_build_path_va`. -/
def g_build_path_step (sep : List Char) (st : BuildPath) (element : List Char) : BuildPath :=
  if element.isEmpty then st
  else if sep.length = 0 then
    { st with
      result := st.result ++ (if st.is_first then [] else sep) ++ element
      is_first := false }
  else
    let start := skipLeading sep element.length element
    let stop := skipTrailing sep element start element.length element.length
    let last := skipTrailing sep element 0 element.length stop
    let st1 : BuildPath :=
      if st.have_leading then { st with single_element := none }
      else
        { st with
          single_element := if last ≤ start then some element else st.single_element
          result := st.result ++ element.take start
          have_leading := true }
    let st2 : BuildPath := { st1 with last_trailing := some (element.drop last) }
    if stop = start then st2
    else
      { st2 with
        result := st2.result ++ (if st2.is_first then [] else sep)
          ++ (element.drop start).take (stop - start)
        is_first := false }

/-- The text returned by `g_build_path_va` once the elements are consumed. -/
def g_build_path_finish (st : BuildPath) : List Char :=
  match st.single_element with
  | some e => e
  | none => st.result ++ st.last_trailing.getD []

/-- GLib `g_build_path (separator, first_element, ..., NULL)`: the first
argument is the separator, the others are the elements to join. -/
def g_build_path (separator : String) (elements : List String) : String :=
  String.mk (g_build_path_finish
    ((elements.map String.data).foldl (g_build_path_step separator.data)
      ⟨[], true, false, none, none⟩))

/-! ## Configuration directories -/

/-- What the platform and the build supply: the `PACKAGE` constant of
`config.h` (not among the sources, `roxterm4` according to the comments of
`roxterm-profile.c`), `g_get_user_config_dir ()` and the NULL-terminated
array `g_get_system_config_dirs ()`. -/
structure Env where
  PACKAGE : String
  user_config_dir : String
  system_config_dirs : List String

/-- Source function `roxterm_profile_get_user_directory`. -/
def roxterm_profile_get_user_directory (env : Env) : String :=
  g_build_path env.user_config_dir [env.PACKAGE]

/-- Source function `roxterm_profile_build_filename`. -/
def roxterm_profile_build_filename (env : Env) (dir name : String) : String :=
  let leafname := name ++ ".ini"
  g_build_path dir [env.PACKAGE, leafname]

/-! ## GLib: key files -/

/-- A `gdouble`, kept as its IEEE-754 bit pattern: the program stores,
returns and forwards doubles and never computes with them. -/
structure GDouble where
  bits : Nat
deriving DecidableEq, Repr

/-- The double `0.0` (all bits clear). -/
def GDouble.zero : GDouble := ⟨0⟩

/-- A value of a key file.  Every group of the program is written and read
at one type only, so a value is represented by its reading at the accessor
type of its group; text of a file that does not parse at that type is a
value of another constructor.  `integer` holds a C `int`, `boolean` a
`gboolean` restricted to `TRUE`/`FALSE`. -/
inductive KeyValue where
  | string (s : String)
  | integer (i : Int)
  | boolean (b : Bool)
  | double (d : GDouble)
deriving DecidableEq, Repr

/-- A `GKeyFile`: the values of its (group, key) pairs, most recent first. -/
structure GKeyFile where
  entries : List ((String × String) × KeyValue)
deriving DecidableEq, Repr

/-- GLib `g_key_file_new ()`: a key file without groups. -/
def g_key_file_new : GKeyFile := ⟨[]⟩

/-- GLib `g_key_file_get_value`: the value of `key` in `group_name`, if any. -/
def g_key_file_get_value (key_file : GKeyFile) (group_name key : String) : Option KeyValue :=
  (key_file.entries.find? (fun e => decide (e.1 = (group_name, key)))).map Prod.snd

/-- GLib `g_key_file_set_value`: associates a new value with `key` under
`group_name`, replacing the previous one. -/
def g_key_file_set_value (key_file : GKeyFile) (group_name key : String) (value : KeyValue) :
    GKeyFile :=
  ⟨((group_name, key), value) ::
    key_file.entries.filter (fun e => !decide (e.1 = (group_name, key)))⟩

/-- GLib `g_key_file_get_string (key_file, group_name, key, NULL)`: `none` is the
NULL that GLib returns when the key cannot be found or is not a string. -/
def g_key_file_get_string (key_file : GKeyFile) (group_name key : String) : Option String :=
  match g_key_file_get_value key_file group_name key with
  | some (KeyValue.string s) => some s
  | _ => none

/-- GLib `g_key_file_get_integer (key_file, group_name, key, NULL)`: `0` when the
key cannot be found or is not an integer. -/
def g_key_file_get_integer (key_file : GKeyFile) (group_name key : String) : Int :=
  match g_key_file_get_value key_file group_name key with
  | some (KeyValue.integer i) => i
  | _ => 0

/-- GLib `g_key_file_get_boolean (key_file, group_name, key, NULL)`: `FALSE` when
the key cannot be found or is not a boolean. -/
def g_key_file_get_boolean (key_file : GKeyFile) (group_name key : String) : Bool :=
  match g_key_file_get_value key_file group_name key with
  | some (KeyValue.boolean b) => b
  | _ => false

/-- GLib `g_key_file_get_double (key_file, group_name, key, NULL)`: `0` when the
key cannot be found or is not a double. -/
def g_key_file_get_double (key_file : GKeyFile) (group_name key : String) : GDouble :=
  match g_key_file_get_value key_file group_name key with
  | some (KeyValue.double d) => d
  | _ => GDouble.zero

/-- GLib `g_key_file_set_string`. -/
def g_key_file_set_string (key_file : GKeyFile) (group_name key value : String) : GKeyFile :=
  g_key_file_set_value key_file group_name key (KeyValue.string value)

/-- GLib `g_key_file_set_integer`. -/
def g_key_file_set_integer (key_file : GKeyFile) (group_name key : String) (value : Int) :
    GKeyFile :=
  g_key_file_set_value key_file group_name key (KeyValue.integer value)

/-- GLib `g_key_file_set_boolean`. -/
def g_key_file_set_boolean (key_file : GKeyFile) (group_name key : String) (value : Bool) :
    GKeyFile :=
  g_key_file_set_value key_file group_name key (KeyValue.boolean value)

/-- GLib `g_key_file_set_double`. -/
def g_key_file_set_double (key_file : GKeyFile) (group_name key : String) (value : GDouble) :
    GKeyFile :=
  g_key_file_set_value key_file group_name key (KeyValue.double value)

/-! ## The filesystem and the observable events -/

/-- What `g_key_file_load_from_file` makes of a file: the groups it leaves
in the key file and whether it reports success (`FALSE` for text that is not
a key file). -/
structure FileData where
  contents : GKeyFile
  well_formed : Bool
deriving DecidableEq, Repr

/-- The filesystem: regular files (first entry of a path wins), directories,
and whether creating or replacing what is at a path succeeds (permissions,
free space, missing parent directories...). -/
structure FileSystem where
  files : List (String × FileData)
  dirs : List String
  writable : String → Bool

/-- The signals of `roxterm_profile_signals`. -/
inductive Signal where
  | STRING_CHANGED
  | INT_CHANGED
  | BOOLEAN_CHANGED
  | FLOAT_CHANGED
deriving DecidableEq, Repr

/-- What the profile does to its environment, in program order. -/
inductive Event where
  /-- GLib `g_key_file_load_from_file (key_file, filename, ...)` and its result -/
  | load_from_file (filename : String) (ok : Bool)
  /-- GLib `g_mkdir_with_parents (dir, 0755)` -/
  | mkdir_with_parents (dir : String)
  /-- GLib `g_key_file_save_to_file (key_file, filename, ...)` and its result -/
  | save_to_file (filename : String) (key_file : GKeyFile) (ok : Bool)
  /-- GLib `g_critical`, with the path the message is about -/
  | critical (filename : String)
  /-- GLib `g_signal_emit (self, signal, 0, key, value)` -/
  | signal_emit (signal : Signal) (key : String) (value : KeyValue)
deriving DecidableEq, Repr

/-- The state outside the profile object. -/
structure World where
  fs : FileSystem
  trace : List Event

/-- The file at `filename`, if it is a regular file. -/
def FileSystem.file (fs : FileSystem) (filename : String) : Option FileData :=
  (fs.files.find? (fun e => decide (e.1 = filename))).map Prod.snd

/-- GLib `g_file_test (filename, G_FILE_TEST_EXISTS)`. -/
def g_file_test_exists (fs : FileSystem) (filename : String) : Bool :=
  (fs.file filename).isSome || decide (filename ∈ fs.dirs)

/-- GLib `g_file_test (dir, G_FILE_TEST_IS_DIR)`. -/
def g_file_test_is_dir (fs : FileSystem) (dir : String) : Bool :=
  decide (dir ∈ fs.dirs)

/-- The directory `dir` and the parents named in it, outermost first. -/
def with_parents (dir : String) : List String :=
  ((List.range dir.data.length).filterMap fun i =>
    if 0 < i ∧ dir.data.get? i = some '/' then some (String.mk (dir.data.take i)) else none)
  ++ [dir]

/-- GLib `g_mkdir_with_parents (dir, 0755)`; the program ignores its result. -/
def g_mkdir_with_parents (w : World) (dir : String) : World :=
  { fs := if w.fs.writable dir then { w.fs with dirs := w.fs.dirs ++ with_parents dir } else w.fs
    trace := w.trace ++ [Event.mkdir_with_parents dir] }

/-- GLib `g_key_file_load_from_file (key_file, filename, G_KEY_FILE_KEEP_COMMENTS,
&error)`: the key file afterwards and the result. -/
def g_key_file_load_from_file (w : World) (key_file : GKeyFile) (filename : String) :
    (GKeyFile × Bool) × World :=
  let r : GKeyFile × Bool :=
    match w.fs.file filename with
    | some d => (d.contents, d.well_formed)
    | none => (key_file, false)
  (r, { w with trace := w.trace ++ [Event.load_from_file filename r.2] })

/-- GLib `g_key_file_save_to_file (key_file, filename, &error)`: the file is
replaced in full by the serialised key file, which
`g_key_file_load_from_file` reads back as the same groups, keys and
values. -/
def g_key_file_save_to_file (w : World) (key_file : GKeyFile) (filename : String) :
    Bool × World :=
  let ok := w.fs.writable filename
  (ok,
    { fs := if ok then { w.fs with files := (filename, ⟨key_file, true⟩) :: w.fs.files } else w.fs
      trace := w.trace ++ [Event.save_to_file filename key_file ok] })

/-- GLib `g_critical (...)`. -/
def g_critical (w : World) (filename : String) : World :=
  { w with trace := w.trace ++ [Event.critical filename] }

/-- GLib `g_signal_emit (self, roxterm_profile_signals[signal], 0, key, value)`;
what the connected handlers do is outside the model. -/
def g_signal_emit (w : World) (signal : Signal) (key : String) (value : KeyValue) : World :=
  { w with trace := w.trace ++ [Event.signal_emit signal key value] }

/-! ## `roxterm-profile.c` -/

/-- The object `struct _RoxtermProfile`; `none` is the NULL pointer. -/
structure RoxtermProfile where
  name : String
  filename : Option String
  key_file : Option GKeyFile
deriving DecidableEq, Repr

/-- Source function `roxterm_profile_new`: the object is zero-filled, then the `name`
property is set. -/
def roxterm_profile_new (name : String) : RoxtermProfile :=
  { name := name, filename := none, key_file := none }

/-- Source function `roxterm_profile_check_directory`. -/
def roxterm_profile_check_directory (env : Env) (fs : FileSystem) (dir name : String) :
    Option String :=
  let filename := roxterm_profile_build_filename env dir name
  if !g_file_test_exists fs filename then none else some filename

/-- The loop `for (int n = 0; dirs[n]; ++n)` of `roxterm_profile_load`. -/
def roxterm_profile_load_dirs (env : Env) (fs : FileSystem) (name : String) :
    List String → Option String
  | [] => none
  | dir :: dirs =>
    match roxterm_profile_check_directory env fs dir name with
    | some filename => some filename
    | none => roxterm_profile_load_dirs env fs name dirs

/-- Source function `roxterm_profile_load`. -/
def roxterm_profile_load (env : Env) (self : RoxtermProfile) (w : World) :
    RoxtermProfile × World :=
  match self.key_file with
  | some _ => (self, w)
  | none =>
    let key_file := g_key_file_new
    let dir := env.user_config_dir
    let self_filename := roxterm_profile_check_directory env w.fs dir self.name
    let filename :=
      match self_filename with
      | some f => some f
      | none => roxterm_profile_load_dirs env w.fs self.name env.system_config_dirs
    match filename with
    | some f =>
      let r := g_key_file_load_from_file w key_file f
      let w := if !r.1.2 then g_critical r.2 f else r.2
      ({ self with filename := self_filename, key_file := some r.1.1 }, w)
    | none => ({ self with filename := self_filename, key_file := some key_file }, w)

/-- Source function `roxterm_profile_save`.  A NULL `key_file` (a save before any load) makes
`g_key_file_save_to_file` return `FALSE` without writing. -/
def roxterm_profile_save (env : Env) (self : RoxtermProfile) (w : World) :
    RoxtermProfile × World :=
  let sw : RoxtermProfile × World :=
    match self.filename with
    | some _ => (self, w)
    | none =>
      let dir := roxterm_profile_get_user_directory env
      let w := if !g_file_test_is_dir w.fs dir then g_mkdir_with_parents w dir else w
      ({ self with
          filename := some (roxterm_profile_build_filename env env.user_config_dir self.name) },
        w)
  let self := sw.1
  let w := sw.2
  match self.key_file, self.filename with
  | some key_file, some filename =>
    let r := g_key_file_save_to_file w key_file filename
    (self, if !r.1 then g_critical r.2 filename else r.2)
  | _, _ => (self, g_critical w (self.filename.getD ""))

/-- Source function `roxterm_profile_get_string`; `none` is a NULL result. -/
def roxterm_profile_get_string (env : Env) (self : RoxtermProfile) (key : String) (w : World) :
    Option String × RoxtermProfile × World :=
  let sw := roxterm_profile_load env self w
  (sw.1.key_file.bind (fun kf => g_key_file_get_string kf "strings" key), sw.1, sw.2)

/-- Source function `roxterm_profile_set_string`. -/
def roxterm_profile_set_string (env : Env) (self : RoxtermProfile) (key value : String)
    (w : World) : RoxtermProfile × World :=
  let sw := roxterm_profile_load env self w
  let self := { sw.1 with
    key_file := sw.1.key_file.map (fun kf => g_key_file_set_string kf "strings" key value) }
  let sw := roxterm_profile_save env self sw.2
  (sw.1, g_signal_emit sw.2 Signal.STRING_CHANGED key (KeyValue.string value))

/-- Source function `roxterm_profile_get_int`. -/
def roxterm_profile_get_int (env : Env) (self : RoxtermProfile) (key : String) (w : World) :
    Int × RoxtermProfile × World :=
  let sw := roxterm_profile_load env self w
  ((sw.1.key_file.map (fun kf => g_key_file_get_integer kf "ints" key)).getD 0, sw.1, sw.2)

/-- Source function `roxterm_profile_set_int`. -/
def roxterm_profile_set_int (env : Env) (self : RoxtermProfile) (key : String) (value : Int)
    (w : World) : RoxtermProfile × World :=
  let sw := roxterm_profile_load env self w
  let self := { sw.1 with
    key_file := sw.1.key_file.map (fun kf => g_key_file_set_integer kf "ints" key value) }
  let sw := roxterm_profile_save env self sw.2
  (sw.1, g_signal_emit sw.2 Signal.INT_CHANGED key (KeyValue.integer value))

/-- Source function `roxterm_profile_get_boolean`. -/
def roxterm_profile_get_boolean (env : Env) (self : RoxtermProfile) (key : String) (w : World) :
    Bool × RoxtermProfile × World :=
  let sw := roxterm_profile_load env self w
  ((sw.1.key_file.map (fun kf => g_key_file_get_boolean kf "booleans" key)).getD false,
    sw.1, sw.2)

/-- Source function `roxterm_profile_set_boolean`. -/
def roxterm_profile_set_boolean (env : Env) (self : RoxtermProfile) (key : String) (value : Bool)
    (w : World) : RoxtermProfile × World :=
  let sw := roxterm_profile_load env self w
  let self := { sw.1 with
    key_file := sw.1.key_file.map (fun kf => g_key_file_set_boolean kf "booleans" key value) }
  let sw := roxterm_profile_save env self sw.2
  (sw.1, g_signal_emit sw.2 Signal.BOOLEAN_CHANGED key (KeyValue.boolean value))

/-- Source function `roxterm_profile_get_float`. -/
def roxterm_profile_get_float (env : Env) (self : RoxtermProfile) (key : String) (w : World) :
    GDouble × RoxtermProfile × World :=
  let sw := roxterm_profile_load env self w
  ((sw.1.key_file.map (fun kf => g_key_file_get_double kf "floats" key)).getD GDouble.zero,
    sw.1, sw.2)

/-- Source function `roxterm_profile_set_float`. -/
def roxterm_profile_set_float (env : Env) (self : RoxtermProfile) (key : String)
    (value : GDouble) (w : World) : RoxtermProfile × World :=
  let sw := roxterm_profile_load env self w
  let self := { sw.1 with
    key_file := sw.1.key_file.map (fun kf => g_key_file_set_double kf "floats" key value) }
  let sw := roxterm_profile_save env self sw.2
  (sw.1, g_signal_emit sw.2 Signal.FLOAT_CHANGED key (KeyValue.double value))

/-- A sample environment. -/
def env0 : Env := ⟨"roxterm4", "/home/u/.config", ["/etc/xdg"]⟩

/-- An empty filesystem on which every write succeeds. -/
def fs0 : FileSystem := ⟨[], [], fun _ => true⟩

/-! ## `search.c`: the flags of the search dialog -/

/-- The constants `ROXTERM_SEARCH_MATCH_CASE`, `ROXTERM_SEARCH_ENTIRE_WORD`,
`ROXTERM_SEARCH_AS_REGEX`, `ROXTERM_SEARCH_BACKWARDS` and
`ROXTERM_SEARCH_WRAP`; the header that declares them is not among the
sources, so they are parameters. -/
structure SearchFlags where
  MATCH_CASE : Nat
  ENTIRE_WORD : Nat
  AS_REGEX : Nat
  BACKWARDS : Nat
  WRAP : Nat

/-- The widgets of `search_data`: the text of the entry and whether each
check button is active. -/
structure SearchData where
  entry : String
  match_case : Bool
  entire_word : Bool
  as_regex : Bool
  backwards : Bool
  wrap : Bool
deriving DecidableEq, Repr

/-- The end of `search_open_dialog`: the entry and the check buttons are set
from the pattern and the flags of the terminal (`none` is a NULL pattern).
A check button is made active when the `gboolean` it is given is not 0. -/
def search_open_dialog (c : SearchFlags) (pattern : Option String) (flags : Nat) : SearchData :=
  let flags := match pattern with
    | some _ => flags
    | none => c.BACKWARDS ||| c.WRAP
  { entry := pattern.getD ""
    match_case := flags &&& c.MATCH_CASE != 0
    entire_word := flags &&& c.ENTIRE_WORD != 0
    as_regex := flags &&& c.AS_REGEX != 0
    backwards := flags &&& c.BACKWARDS != 0
    wrap := flags &&& c.WRAP != 0 }

/-- The `flags` that `search_response_cb` computes from the check buttons on
`GTK_RESPONSE_ACCEPT` and passes to `roxterm_set_search`. -/
def search_response_cb_flags (c : SearchFlags) (d : SearchData) : Nat :=
  (if d.match_case then 0 else c.MATCH_CASE) |||
  (if d.as_regex then c.AS_REGEX else 0) |||
  (if d.entire_word then c.ENTIRE_WORD else 0) |||
  (if d.backwards then c.BACKWARDS else 0) |||
  (if d.wrap then c.WRAP else 0)

/-- An assignment of five distinct bits to the constants, in the order of
their declaration. -/
def search_flags0 : SearchFlags := ⟨1, 2, 4, 8, 16⟩

/-! ## Observations on traces -/

/-- The files handed to `g_key_file_load_from_file`, in order. -/
def files_read : List Event → List String
  | [] => []
  | Event.load_from_file filename _ :: es => filename :: files_read es
  | _ :: es => files_read es

/-- The signal emissions, in order. -/
def emitted : List Event → List (Signal × String × KeyValue)
  | [] => []
  | Event.signal_emit signal key value :: es => (signal, key, value) :: emitted es
  | _ :: es => emitted es

/-- The files handed to `g_key_file_save_to_file`, in order, each with the
result of the write. -/
def files_written : List Event → List (String × Bool)
  | [] => []
  | Event.save_to_file filename _ ok :: es => (filename, ok) :: files_written es
  | _ :: es => files_written es

/-- The profile as `roxterm_profile_save` receives it from a setter: loaded,
then its key file updated by `upd`. -/
def stored (env : Env) (self : RoxtermProfile) (w : World) (upd : GKeyFile → GKeyFile) :
    RoxtermProfile :=
  { (roxterm_profile_load env self w).1 with
    key_file := (roxterm_profile_load env self w).1.key_file.map upd }

/-- The common shape of the four setters: load, update the key file, save,
emit the signal. -/
def set_pipeline (env : Env) (self : RoxtermProfile) (w : World) (upd : GKeyFile → GKeyFile)
    (signal : Signal) (key : String) (value : KeyValue) : RoxtermProfile × World :=
  ((roxterm_profile_save env (stored env self w upd) (roxterm_profile_load env self w).2).1,
    g_signal_emit
      (roxterm_profile_save env (stored env self w upd) (roxterm_profile_load env self w).2).2
      signal key value)

/-- The outcome of `g_key_file_load_from_file` on a fresh key file: the key
file afterwards, the result, and the events of the load and of the
`g_critical` that follows a failure. -/
def load_outcome (fs : FileSystem) (f : String) : GKeyFile × List Event :=
  match fs.file f with
  | some d =>
    (d.contents,
      if d.well_formed then [Event.load_from_file f true]
      else [Event.load_from_file f false, Event.critical f])
  | none => (g_key_file_new, [Event.load_from_file f false, Event.critical f])

/-- The path `roxterm_profile_save` writes to: the file path of the profile
when it is set, the one built for the user configuration directory
otherwise. -/
def save_path (env : Env) (self : RoxtermProfile) : String :=
  self.filename.getD (roxterm_profile_build_filename env env.user_config_dir self.name)

/-- The world in which `roxterm_profile_save` calls
`g_key_file_save_to_file`: the directory built by
`roxterm_profile_get_user_directory` has been created if the file path was
unset and that directory was missing. -/
def save_world (env : Env) (self : RoxtermProfile) (w : World) : World :=
  if self.filename.isNone && !g_file_test_is_dir w.fs (roxterm_profile_get_user_directory env)
  then g_mkdir_with_parents w (roxterm_profile_get_user_directory env) else w

/-- A filesystem whose only file is the candidate that
`roxterm_profile_check_directory` probes for the system directory `/etc/xdg`
and the profile `Default`; every write succeeds. -/
def fs_system_only : FileSystem :=
  { files := [(roxterm_profile_build_filename env0 "/etc/xdg" "Default",
      ⟨⟨[(("strings", "font"), KeyValue.string "Mono")]⟩, true⟩)]
    dirs := []
    writable := fun _ => true }

/-! ## The loops of `g_build_path` run to their exit condition -/

/-- With fuel for the length of the text, the loop that skips leading
separators stops because the text no longer starts with the separator. -/
theorem skipLeading_exit (sep : List Char) (hsep : sep ≠ []) :
    ∀ (fuel : Nat) (s : List Char), s.length ≤ fuel →
      sep.isPrefixOf (s.drop (skipLeading sep fuel s)) = false := by
  intro fuel
  induction fuel with
  | zero =>
    intro s hs
    have h0 : s = [] := List.length_eq_zero.mp (Nat.le_zero.mp hs)
    subst h0
    cases sep with
    | nil => exact absurd rfl hsep
    | cons c cs => rfl
  | succ n ih =>
    intro s hs
    cases hp : sep.isPrefixOf s with
    | false => simp [skipLeading, hp]
    | true =>
      simp only [skipLeading, hp, if_true]
      rw [← List.drop_drop]
      apply ih
      have hpos : 0 < sep.length := List.length_pos.mpr hsep
      have hle : sep.length ≤ s.length := (List.isPrefixOf_iff_prefix.mp hp).length_le
      rw [List.length_drop]
      omega

/-- The loop that skips trailing separators never moves forward. -/
theorem skipTrailing_le (sep element : List Char) (lo : Nat) :
    ∀ (fuel e : Nat), skipTrailing sep element lo fuel e ≤ e := by
  intro fuel
  induction fuel with
  | zero => intro e; exact Nat.le_refl _
  | succ n ih =>
    intro e
    simp only [skipTrailing]
    split
    · exact Nat.le_trans (ih _) (Nat.sub_le _ _)
    · exact Nat.le_refl _

/-- With fuel for the offset it starts from, the loop that skips trailing
separators stops because its condition is false. -/
theorem skipTrailing_exit (sep element : List Char) (lo : Nat) (hsep : sep ≠ []) :
    ∀ (fuel e : Nat), e ≤ fuel →
      ¬ (lo + sep.length ≤ skipTrailing sep element lo fuel e ∧
        sep.isPrefixOf (element.drop (skipTrailing sep element lo fuel e - sep.length))
          = true) := by
  have hpos : 0 < sep.length := List.length_pos.mpr hsep
  intro fuel
  induction fuel with
  | zero =>
    intro e he
    simp only [skipTrailing]
    intro h
    omega
  | succ n ih =>
    intro e he
    by_cases hc : lo + sep.length ≤ e ∧ sep.isPrefixOf (element.drop (e - sep.length)) = true
    · rw [skipTrailing, if_pos hc]
      apply ih
      omega
    · rw [skipTrailing, if_neg hc]
      exact hc

/-! ## Lemmas on the key file -/

@[simp] theorem files_read_append (a b : List Event) :
    files_read (a ++ b) = files_read a ++ files_read b := by
  induction a with
  | nil => rfl
  | cons e es ih => cases e <;> simp [files_read, ih]

@[simp] theorem emitted_append (a b : List Event) :
    emitted (a ++ b) = emitted a ++ emitted b := by
  induction a with
  | nil => rfl
  | cons e es ih => cases e <;> simp [emitted, ih]

@[simp] theorem files_written_append (a b : List Event) :
    files_written (a ++ b) = files_written a ++ files_written b := by
  induction a with
  | nil => rfl
  | cons e es ih => cases e <;> simp [files_written, ih]

/-! ## Lemmas on `roxterm_profile_load` -/

/-- The directory loop returns the candidate of the first directory whose
candidate exists. -/
theorem load_dirs_eq_find (env : Env) (fs : FileSystem) (name : String) (dirs : List String) :
    roxterm_profile_load_dirs env fs name dirs =
      (dirs.find? fun d => g_file_test_exists fs (roxterm_profile_build_filename env d name)).map
        fun d => roxterm_profile_build_filename env d name := by
  induction dirs with
  | nil => rfl
  | cons d ds ih =>
    simp only [roxterm_profile_load_dirs, roxterm_profile_check_directory, List.find?_cons]
    cases h : g_file_test_exists fs (roxterm_profile_build_filename env d name) <;> simp [ih]

/-- A profile whose key file is set is left alone by `roxterm_profile_load`. -/
theorem load_of_key_file (env : Env) (self : RoxtermProfile) (w : World) (kf : GKeyFile)
    (h : self.key_file = some kf) : roxterm_profile_load env self w = (self, w) := by
  simp [roxterm_profile_load, h]

/-- The function `roxterm_profile_load` on a profile without key file, when
the candidate of the user directory exists. -/
theorem load_user (env : Env) (self : RoxtermProfile) (w : World)
    (hk : self.key_file = none)
    (hu : g_file_test_exists w.fs
      (roxterm_profile_build_filename env env.user_config_dir self.name) = true) :
    roxterm_profile_load env self w =
      ({ self with
          filename := some (roxterm_profile_build_filename env env.user_config_dir self.name)
          key_file := some (load_outcome w.fs
            (roxterm_profile_build_filename env env.user_config_dir self.name)).1 },
        { w with trace := w.trace ++ (load_outcome w.fs
            (roxterm_profile_build_filename env env.user_config_dir self.name)).2 }) := by
  cases hf : w.fs.file (roxterm_profile_build_filename env env.user_config_dir self.name) with
  | none =>
    simp [roxterm_profile_load, hk, roxterm_profile_check_directory, hu,
      g_key_file_load_from_file, g_critical, load_outcome, hf]
  | some d =>
    cases hd : d.well_formed <;>
    simp [roxterm_profile_load, hk, roxterm_profile_check_directory, hu,
      g_key_file_load_from_file, g_critical, load_outcome, hf, hd]

/-- The function `roxterm_profile_load` on a profile without key file, when
the candidate of the user directory does not exist and a system directory
has one. -/
theorem load_system (env : Env) (self : RoxtermProfile) (w : World) (f : String)
    (hk : self.key_file = none)
    (hu : g_file_test_exists w.fs
      (roxterm_profile_build_filename env env.user_config_dir self.name) = false)
    (hs : roxterm_profile_load_dirs env w.fs self.name env.system_config_dirs = some f) :
    roxterm_profile_load env self w =
      ({ self with filename := none, key_file := some (load_outcome w.fs f).1 },
        { w with trace := w.trace ++ (load_outcome w.fs f).2 }) := by
  cases hf : w.fs.file f with
  | none =>
    simp [roxterm_profile_load, hk, roxterm_profile_check_directory, hu, hs,
      g_key_file_load_from_file, g_critical, load_outcome, hf]
  | some d =>
    cases hd : d.well_formed <;>
    simp [roxterm_profile_load, hk, roxterm_profile_check_directory, hu, hs,
      g_key_file_load_from_file, g_critical, load_outcome, hf, hd]

/-- The function `roxterm_profile_load` on a profile without key file, when
no candidate exists. -/
theorem load_nothing (env : Env) (self : RoxtermProfile) (w : World)
    (hk : self.key_file = none)
    (hu : g_file_test_exists w.fs
      (roxterm_profile_build_filename env env.user_config_dir self.name) = false)
    (hs : roxterm_profile_load_dirs env w.fs self.name env.system_config_dirs = none) :
    roxterm_profile_load env self w =
      ({ self with filename := none, key_file := some g_key_file_new }, w) := by
  simp [roxterm_profile_load, hk, roxterm_profile_check_directory, hu, hs]

/-- The events of `load_outcome` hold no signal and no write. -/
theorem quiet_load_outcome (fs : FileSystem) (f : String) :
    emitted (load_outcome fs f).2 = [] ∧ files_written (load_outcome fs f).2 = [] := by
  unfold load_outcome
  split
  · split <;> exact ⟨rfl, rfl⟩
  · exact ⟨rfl, rfl⟩

/-- After `roxterm_profile_load` the key file is set. -/
theorem load_key_file_set (env : Env) (self : RoxtermProfile) (w : World) :
    ∃ kf, (roxterm_profile_load env self w).1.key_file = some kf := by
  cases hk : self.key_file with
  | some kf => exact ⟨kf, by rw [load_of_key_file env self w kf hk]; exact hk⟩
  | none =>
    cases hu : g_file_test_exists w.fs
        (roxterm_profile_build_filename env env.user_config_dir self.name) with
    | true => exact ⟨_, by rw [load_user env self w hk hu]⟩
    | false =>
      cases hs : roxterm_profile_load_dirs env w.fs self.name env.system_config_dirs with
      | none => exact ⟨_, by rw [load_nothing env self w hk hu hs]⟩
      | some f => exact ⟨_, by rw [load_system env self w f hk hu hs]⟩

/-- The function `roxterm_profile_load` changes neither the filesystem nor
the name, emits no signal and writes no file. -/
theorem load_quiet (env : Env) (self : RoxtermProfile) (w : World) :
    (roxterm_profile_load env self w).2.fs = w.fs ∧
      (roxterm_profile_load env self w).1.name = self.name ∧
      emitted (roxterm_profile_load env self w).2.trace = emitted w.trace ∧
      files_written (roxterm_profile_load env self w).2.trace = files_written w.trace := by
  cases hk : self.key_file with
  | some kf => rw [load_of_key_file env self w kf hk]; exact ⟨rfl, rfl, rfl, rfl⟩
  | none =>
    cases hu : g_file_test_exists w.fs
        (roxterm_profile_build_filename env env.user_config_dir self.name) with
    | true =>
      rw [load_user env self w hk hu]
      simp [(quiet_load_outcome w.fs _).1, (quiet_load_outcome w.fs _).2]
    | false =>
      cases hs : roxterm_profile_load_dirs env w.fs self.name env.system_config_dirs with
      | none => rw [load_nothing env self w hk hu hs]; exact ⟨rfl, rfl, rfl, rfl⟩
      | some f =>
        rw [load_system env self w f hk hu hs]
        simp [(quiet_load_outcome w.fs _).1, (quiet_load_outcome w.fs _).2]

/-! ## Lemmas on `roxterm_profile_save` -/

/-- The function `roxterm_profile_save` on a profile whose key file is set. -/
theorem save_eq (env : Env) (self : RoxtermProfile) (w : World) (kf : GKeyFile)
    (hk : self.key_file = some kf) :
    roxterm_profile_save env self w =
      ({ self with filename := some (save_path env self) },
        if w.fs.writable (save_path env self) then
          { fs := { (save_world env self w).fs with
              files := (save_path env self, ⟨kf, true⟩) :: (save_world env self w).fs.files }
            trace := (save_world env self w).trace
              ++ [Event.save_to_file (save_path env self) kf true] }
        else
          { fs := (save_world env self w).fs
            trace := (save_world env self w).trace
              ++ [Event.save_to_file (save_path env self) kf false,
                  Event.critical (save_path env self)] }) := by
  obtain ⟨n, fn, k⟩ := self
  simp only at hk
  subst hk
  cases fn with
  | some f =>
    cases hw : w.fs.writable f <;>
    simp [roxterm_profile_save, save_path, save_world, g_key_file_save_to_file,
      g_critical, hw]
  | none =>
    cases hd : g_file_test_is_dir w.fs (roxterm_profile_get_user_directory env) <;>
    cases hw : w.fs.writable
      (roxterm_profile_build_filename env env.user_config_dir n) <;>
    cases hm : w.fs.writable (roxterm_profile_get_user_directory env) <;>
    simp [roxterm_profile_save, save_path, save_world, g_key_file_save_to_file,
      g_critical, g_mkdir_with_parents, hw, hd, hm]

/-- The events of `save_world` beyond those of the world it starts from hold
no signal, no read and no write of a file. -/
theorem save_world_quiet (env : Env) (self : RoxtermProfile) (w : World) :
    ∃ pre, (save_world env self w).trace = w.trace ++ pre ∧ emitted pre = [] ∧
      files_read pre = [] ∧ files_written pre = [] := by
  unfold save_world
  split
  · exact ⟨[Event.mkdir_with_parents (roxterm_profile_get_user_directory env)],
      rfl, rfl, rfl, rfl⟩
  · exact ⟨[], by simp, rfl, rfl, rfl⟩

/-! ## Lemmas on the setters -/

theorem set_string_eq (env : Env) (self : RoxtermProfile) (key value : String) (w : World) :
    roxterm_profile_set_string env self key value w =
      set_pipeline env self w (fun kf => g_key_file_set_string kf "strings" key value)
        Signal.STRING_CHANGED key (KeyValue.string value) := rfl

theorem set_int_eq (env : Env) (self : RoxtermProfile) (key : String) (value : Int)
    (w : World) :
    roxterm_profile_set_int env self key value w =
      set_pipeline env self w (fun kf => g_key_file_set_integer kf "ints" key value)
        Signal.INT_CHANGED key (KeyValue.integer value) := rfl

theorem set_boolean_eq (env : Env) (self : RoxtermProfile) (key : String) (value : Bool)
    (w : World) :
    roxterm_profile_set_boolean env self key value w =
      set_pipeline env self w (fun kf => g_key_file_set_boolean kf "booleans" key value)
        Signal.BOOLEAN_CHANGED key (KeyValue.boolean value) := rfl

theorem set_float_eq (env : Env) (self : RoxtermProfile) (key : String) (value : GDouble)
    (w : World) :
    roxterm_profile_set_float env self key value w =
      set_pipeline env self w (fun kf => g_key_file_set_double kf "floats" key value)
        Signal.FLOAT_CHANGED key (KeyValue.double value) := rfl

/-- The setters in full, for the key file `kf0` that the load step leaves. -/
theorem set_pipeline_eq (env : Env) (self : RoxtermProfile) (w : World)
    (upd : GKeyFile → GKeyFile) (signal : Signal) (key : String) (value : KeyValue)
    (kf0 : GKeyFile) (h0 : (roxterm_profile_load env self w).1.key_file = some kf0) :
    set_pipeline env self w upd signal key value =
      ({ stored env self w upd with filename := some (save_path env (stored env self w upd)) },
        if w.fs.writable (save_path env (stored env self w upd)) then
          { fs := { (save_world env (stored env self w upd)
                (roxterm_profile_load env self w).2).fs with
              files := (save_path env (stored env self w upd), ⟨upd kf0, true⟩) ::
                (save_world env (stored env self w upd)
                  (roxterm_profile_load env self w).2).fs.files }
            trace := (save_world env (stored env self w upd)
                (roxterm_profile_load env self w).2).trace
              ++ [Event.save_to_file (save_path env (stored env self w upd)) (upd kf0) true,
                  Event.signal_emit signal key value] }
        else
          { fs := (save_world env (stored env self w upd)
              (roxterm_profile_load env self w).2).fs
            trace := (save_world env (stored env self w upd)
                (roxterm_profile_load env self w).2).trace
              ++ [Event.save_to_file (save_path env (stored env self w upd)) (upd kf0) false,
                  Event.critical (save_path env (stored env self w upd)),
                  Event.signal_emit signal key value] }) := by
  have hs : (stored env self w upd).key_file = some (upd kf0) := by simp [stored, h0]
  unfold set_pipeline
  rw [save_eq env (stored env self w upd) _ (upd kf0) hs, (load_quiet env self w).1]
  split <;> simp [g_signal_emit]

/-- The getters on a profile whose key file is set. -/
theorem getters_of_key_file (env : Env) (self : RoxtermProfile) (w : World) (kf : GKeyFile)
    (h : self.key_file = some kf) (key : String) :
    roxterm_profile_get_string env self key w
        = (g_key_file_get_string kf "strings" key, self, w) ∧
      roxterm_profile_get_int env self key w = (g_key_file_get_integer kf "ints" key, self, w) ∧
      roxterm_profile_get_boolean env self key w
        = (g_key_file_get_boolean kf "booleans" key, self, w) ∧
      roxterm_profile_get_float env self key w
        = (g_key_file_get_double kf "floats" key, self, w) := by
  simp [roxterm_profile_get_string, roxterm_profile_get_int, roxterm_profile_get_boolean,
    roxterm_profile_get_float, load_of_key_file env self w kf h, h]

/-- The reads of a setter are those of its load step. -/
theorem set_pipeline_read (env : Env) (self : RoxtermProfile) (w : World)
    (upd : GKeyFile → GKeyFile) (signal : Signal) (key : String) (value : KeyValue) :
    files_read (set_pipeline env self w upd signal key value).2.trace =
      files_read (roxterm_profile_load env self w).2.trace := by
  obtain ⟨kf0, h0⟩ := load_key_file_set env self w
  obtain ⟨spre, hsw, _, hsr, _⟩ :=
    save_world_quiet env (stored env self w upd) (roxterm_profile_load env self w).2
  rw [set_pipeline_eq env self w upd signal key value kf0 h0]
  cases hw : w.fs.writable (save_path env (stored env self w upd)) <;>
    simp [hsw, hsr, files_read]

/-- C1, the code at the input dir = /home/u/.config, name = Default, with
PACKAGE = roxterm4: `roxterm_profile_build_filename` passes `dir` to
`g_build_path` as the separator, so the path it builds is
`roxterm4/home/u/.configDefault.ini` (PACKAGE, then dir used as the glue,
then the leaf name), not `/home/u/.config/roxterm4/Default.ini`, which is
what `g_build_path` gives with the separator `/` and `dir` as first
element. -/
theorem build_filename_dir_is_separator :
    roxterm_profile_build_filename env0 "/home/u/.config" "Default"
        = "roxterm4/home/u/.configDefault.ini" ∧
      roxterm_profile_build_filename env0 "/home/u/.config" "Default"
        ≠ "/home/u/.config/roxterm4/Default.ini" ∧
      g_build_path "/" ["/home/u/.config", env0.PACKAGE, "Default.ini"]
        = "/home/u/.config/roxterm4/Default.ini" := by
  decide

/-- C7, counterexample: on a fresh profile without backing file anywhere,
`roxterm_profile_get_string` returns NULL (`none`), not the empty text. -/
theorem get_string_without_file_is_null :
    (roxterm_profile_get_string env0 (roxterm_profile_new "Default") "font" ⟨fs0, []⟩).1
        ≠ some "" ∧
      (roxterm_profile_get_string env0 (roxterm_profile_new "Default") "font" ⟨fs0, []⟩).1
        = none := by
  decide

/-- C7, amended: on a fresh profile with no candidate file in the user
directory nor in any system directory, `get_string` returns NULL (no value),
`get_int` returns 0, `get_boolean` returns false and `get_float` returns
0.0; each getter installs the empty store, leaves the file path unset, and
leaves the world (filesystem and trace) as it was: nothing is read, created
or written. -/
theorem getters_without_file (env : Env) (name key : String) (w : World)
    (h : ∀ d ∈ env.user_config_dir :: env.system_config_dirs,
      g_file_test_exists w.fs (roxterm_profile_build_filename env d name) = false) :
    roxterm_profile_get_string env (roxterm_profile_new name) key w
        = (none, { name := name, filename := none, key_file := some g_key_file_new }, w) ∧
      roxterm_profile_get_int env (roxterm_profile_new name) key w
        = (0, { name := name, filename := none, key_file := some g_key_file_new }, w) ∧
      roxterm_profile_get_boolean env (roxterm_profile_new name) key w
        = (false, { name := name, filename := none, key_file := some g_key_file_new }, w) ∧
      roxterm_profile_get_float env (roxterm_profile_new name) key w
        = (GDouble.zero,
            { name := name, filename := none, key_file := some g_key_file_new }, w) := by
  have hk : (roxterm_profile_new name).key_file = none := rfl
  have hu := h env.user_config_dir (List.mem_cons_self _ _)
  have hs : roxterm_profile_load_dirs env w.fs name env.system_config_dirs = none := by
    rw [load_dirs_eq_find]
    simp only [Option.map_eq_none', List.find?_eq_none]
    intro d hd
    simp [h d (List.mem_cons_of_mem _ hd)]
  have hl := load_nothing env (roxterm_profile_new name) w hk hu hs
  simp only [roxterm_profile_get_string, roxterm_profile_get_int, roxterm_profile_get_boolean,
    roxterm_profile_get_float, hl]
  simp [roxterm_profile_new, g_key_file_get_string, g_key_file_get_integer,
    g_key_file_get_boolean, g_key_file_get_double, g_key_file_get_value, g_key_file_new]

/-- C7, amended, at a concrete input: the profile `Default` on the empty
filesystem. -/
theorem getters_without_file_witness :
    (∀ d ∈ env0.user_config_dir :: env0.system_config_dirs,
        g_file_test_exists fs0 (roxterm_profile_build_filename env0 d "Default") = false) ∧
      (roxterm_profile_get_string env0 (roxterm_profile_new "Default") "font" ⟨fs0, []⟩).1
        = none ∧
      (roxterm_profile_get_int env0 (roxterm_profile_new "Default") "font" ⟨fs0, []⟩).1
        = 0 :=
  ⟨by decide,
    by rw [(getters_without_file env0 "Default" "font" ⟨fs0, []⟩ (by decide)).1],
    by rw [(getters_without_file env0 "Default" "font" ⟨fs0, []⟩ (by decide)).2.1]⟩

/-- C8: on a profile whose store is set, in any world (whatever has become
of the filesystem since the first load), `roxterm_profile_load` returns the
profile and the world as they are: no file is read, store and file path are
unchanged.  Hence every getter leaves profile and world as they are, and
every setter reads no file. -/
theorem load_is_memoized (env : Env) (self : RoxtermProfile) (w : World)
    (h : self.key_file.isSome = true) :
    roxterm_profile_load env self w = (self, w) ∧
      (∀ key, (roxterm_profile_get_string env self key w).2 = (self, w) ∧
        (roxterm_profile_get_int env self key w).2 = (self, w) ∧
        (roxterm_profile_get_boolean env self key w).2 = (self, w) ∧
        (roxterm_profile_get_float env self key w).2 = (self, w)) ∧
      (∀ key s i b d,
        files_read (roxterm_profile_set_string env self key s w).2.trace
          = files_read w.trace ∧
        files_read (roxterm_profile_set_int env self key i w).2.trace = files_read w.trace ∧
        files_read (roxterm_profile_set_boolean env self key b w).2.trace
          = files_read w.trace ∧
        files_read (roxterm_profile_set_float env self key d w).2.trace
          = files_read w.trace) := by
  obtain ⟨kf, hk⟩ := Option.isSome_iff_exists.mp h
  have hl := load_of_key_file env self w kf hk
  refine ⟨hl, ?_, ?_⟩
  · intro key
    have hg := getters_of_key_file env self w kf hk key
    rw [hg.1, hg.2.1, hg.2.2.1, hg.2.2.2]
    exact ⟨rfl, rfl, rfl, rfl⟩
  · intro key s i b d
    rw [set_string_eq, set_int_eq, set_boolean_eq, set_float_eq]
    simp only [set_pipeline_read, hl, and_self]

/-- C8 at a concrete input: the profile `Default`, loaded on the empty
filesystem, is not reloaded once a file for it has appeared in a system
directory. -/
theorem load_is_memoized_witness :
    (roxterm_profile_load env0 (roxterm_profile_new "Default") ⟨fs0, []⟩).1.key_file.isSome
        = true ∧
      roxterm_profile_load env0
          (roxterm_profile_load env0 (roxterm_profile_new "Default") ⟨fs0, []⟩).1
          ⟨fs_system_only, []⟩
        = ((roxterm_profile_load env0 (roxterm_profile_new "Default") ⟨fs0, []⟩).1,
            ⟨fs_system_only, []⟩) :=
  ⟨by decide,
    (load_is_memoized env0
      (roxterm_profile_load env0 (roxterm_profile_new "Default") ⟨fs0, []⟩).1
      ⟨fs_system_only, []⟩ (by decide)).1⟩

/-- C4, the code at the input user_config_dir = /home/u/.config, PACKAGE =
roxterm4, a filesystem without files or directories, and the first call
`set_int ("k", 1)` on the fresh profile `Default`: the directory created is
`roxterm4` (a relative path, the result of `g_build_path` with the user
directory as separator and PACKAGE as only element), the file path becomes
`roxterm4/home/u/.configDefault.ini`, and that is the one path written to,
with the result the filesystem gives; neither is under
`/home/u/.config/roxterm4`. -/
theorem first_set_int_paths (wr : String → Bool) :
    (roxterm_profile_set_int env0 (roxterm_profile_new "Default") "k" 1
        ⟨⟨[], [], wr⟩, []⟩).1.filename = some "roxterm4/home/u/.configDefault.ini" ∧
      (roxterm_profile_set_int env0 (roxterm_profile_new "Default") "k" 1
        ⟨⟨[], [], wr⟩, []⟩).2.trace.head? = some (Event.mkdir_with_parents "roxterm4") ∧
      files_written (roxterm_profile_set_int env0 (roxterm_profile_new "Default") "k" 1
        ⟨⟨[], [], wr⟩, []⟩).2.trace
        = [("roxterm4/home/u/.configDefault.ini", wr "roxterm4/home/u/.configDefault.ini")] ∧
      Event.mkdir_with_parents "/home/u/.config/roxterm4" ∉
        (roxterm_profile_set_int env0 (roxterm_profile_new "Default") "k" 1
          ⟨⟨[], [], wr⟩, []⟩).2.trace := by
  have hb : roxterm_profile_build_filename env0 "/home/u/.config" "Default"
      = "roxterm4/home/u/.configDefault.ini" := by decide
  have hs : roxterm_profile_build_filename env0 "/etc/xdg" "Default"
      = "roxterm4/etc/xdgDefault.ini" := by decide
  have hd : roxterm_profile_get_user_directory env0 = "roxterm4" := by decide
  have hu : env0.user_config_dir = "/home/u/.config" := rfl
  have hy : env0.system_config_dirs = ["/etc/xdg"] := rfl
  cases h1 : wr "roxterm4" <;> cases h2 : wr "roxterm4/home/u/.configDefault.ini" <;>
    simp [roxterm_profile_set_int, roxterm_profile_load, roxterm_profile_save,
      roxterm_profile_new, roxterm_profile_check_directory, roxterm_profile_load_dirs,
      g_file_test_exists, g_file_test_is_dir, FileSystem.file, g_mkdir_with_parents,
      g_key_file_save_to_file, g_critical, g_signal_emit, files_written, hb, hs, hd, hu, hy,
      h1, h2]

/-- C10, the code at the input flags = 0 with a non-null pattern: all five
check buttons are set inactive, and the flags computed from them are
MATCH_CASE, not 0, whatever the values of the constants.  With the constants
1, 2, 4, 8, 16 the round trip maps every flags value f below 32 to f with
the MATCH_CASE bit flipped, and the computed flags have MATCH_CASE set
exactly when the Match Case button is not active. -/
theorem search_flags_round_trip_flips_match_case :
    (∀ (c : SearchFlags) (pattern : String),
        (search_open_dialog c (some pattern) 0).match_case = false ∧
        search_response_cb_flags c (search_open_dialog c (some pattern) 0) = c.MATCH_CASE) ∧
      (∀ f < 32, search_response_cb_flags search_flags0
        (search_open_dialog search_flags0 (some "abc") f) = f ^^^ 1) ∧
      (∀ d : SearchData,
        (search_response_cb_flags search_flags0 d &&& 1 != 0) = !d.match_case) := by
  refine ⟨?_, by decide, ?_⟩
  · intro c pattern
    simp [search_open_dialog, search_response_cb_flags]
  · intro d
    obtain ⟨e, a, b, c, x, y⟩ := d
    cases a <;> cases b <;> cases c <;> cases x <;> cases y <;>
      simp [search_response_cb_flags, search_flags0]

end Roxterm
